import Mathlib

/-!
Shallow embedding of the genry CLI pipeline (packages/genry/src/bin.ts).

The embedded fragment is the template discovery / selection / invocation
pipeline of the `Genry` class and the surrounding process boundary:

* `searchTemplates` expands a glob pattern, emits the `found` / `notFound`
  notification and hands the matched files to `loadTemplates`;
* `loadTemplates` saves the working directory, changes into the package root,
  dynamically imports every matched file with `Promise.all`, normalizes the
  default exports and changes back;
* `start` runs the search, shows the picker when templates exist, invokes the
  selected generation routine and emits the `end` notification;
* the top-level async IIFE awaits `start`; a rejection there is an unhandled
  rejection, which terminates the node process with a non-zero exit code.

JavaScript semantics captured by the model:

* A dynamic `import(file)` that fails to load produces a REJECTED PROMISE; it
  never throws synchronously (both under native ESM and under the TypeScript
  CommonJS downlevel `Promise.resolve().then(() => require(file))`).  The
  `try { return import(...) } catch` in `loadTemplates` therefore only guards
  the synchronous creation of the promise: a failed import is NOT intercepted
  by it, so `Promise.all` rejects and the rejection propagates out of
  `loadTemplates`.  The model reflects this: a failing file makes the load
  step reject, and the `process.chdir(startedCwd)` restore line is skipped.
* `.filter((v) => v)` keeps truthy values: objects and arrays (empty arrays
  included) survive, `null` and `undefined` are dropped.
* `prompts` resolves with the selected choice value, or with `undefined` when
  the user cancels; the model takes the selection as an `Option Nat` index
  into the choices array.

Effects are made explicit: the working directory is threaded as a value, and
observable actions (editor-bridge events, import attempts, the picker prompt,
generation calls) are recorded in a trace list.
-/

set_option autoImplicit false

namespace Genry

/-- A template record: the shape the CLI reads off a default export
(`name`, optional `description`, a `generate` routine).  The generation
routine is arbitrary user code; the model keeps only its observable outcome
when invoked: resolution, or rejection with an error value. -/
structure Template where
  name : String
  description : Option String := none
  generateResult : Except String Unit := .ok ()
deriving Repr

/-- The default export of a successfully imported template file, as consumed
by `loadTemplates`: a single template object, an array of templates, or a
nullish value (`null` / `undefined`, including a missing default export). -/
inductive DefaultExport where
  | single (t : Template)
  | arr (ts : List Template)
  | nullish
deriving Repr

/-- The import behaviour of the file system: what awaiting
`import(path.join(packagePath, file))` does for each matched file — resolve
with its default export, or reject with an error. -/
def ImportEnv : Type := String → Except String DefaultExport

/-- `Promise.all` over `files.map((file) => import(...).then((f) => f.default))`:
resolves with the list of default exports when every import resolves, and
rejects when any import rejects.  All the promises are created up front, so
every file is attempted even when some reject. -/
def promiseAllImports (importEnv : ImportEnv) : List String → Except String (List DefaultExport)
  | [] => .ok []
  | f :: fs => do
    let e ← importEnv f
    let es ← promiseAllImports importEnv fs
    pure (e :: es)

/-- `.filter((v) => v)` over the settled exports: truthiness keeps template
objects and arrays (empty arrays included) and drops nullish values. -/
def truthyExports : List DefaultExport → List (Template ⊕ List Template)
  | [] => []
  | .nullish :: es => truthyExports es
  | .single t :: es => .inl t :: truthyExports es
  | .arr ts :: es => .inr ts :: truthyExports es

/-- One step of `.reduce((acc, t) => acc.concat(Array.isArray(t) ? t : [t]), [])`. -/
def concatStep (acc : List Template) : Template ⊕ List Template → List Template
  | .inl t => acc ++ [t]
  | .inr ts => acc ++ ts

/-- Outcome of the `loadTemplates` step: its settled value (the flattened
template list, or the propagated rejection) together with the working
directory of the process when the step settles. -/
structure LoadResult where
  result : Except String (List Template)
  finalCwd : String
deriving Repr

/-- `Genry.loadTemplates` (bin.ts lines 123-148).  `startedCwd` is the working
directory read by `process.cwd()` on entry; the method then changes into
`packagePath`, awaits `Promise.all` over the imports, filters and flattens the
exports, and changes back to `startedCwd`.  When some import rejects, the
`await` throws, so the function rejects with the working directory still set
to `packagePath`: the restore line is never reached. -/
def loadTemplates (importEnv : ImportEnv) (packagePath startedCwd : String)
    (files : List String) : LoadResult :=
  match promiseAllImports importEnv files with
  | .error e => { result := .error e, finalCwd := packagePath }
  | .ok exps =>
    { result := .ok ((truthyExports exps).foldl concatStep [])
      finalCwd := startedCwd }

/-- Observable actions of one run, in order: editor-bridge events (`found`,
`notFound`, `end`), an attempted dynamic import of a file, the picker prompt
being shown, and an invocation of a generation routine (by template name). -/
inductive Item where
  | found
  | notFound
  | endEv
  | importFile (f : String)
  | prompt
  | generateCall (name : String)
deriving Repr, DecidableEq

/-- Outcome of the `searchTemplates` step: settled value, trace of observable
actions, and final working directory. -/
structure SearchResult where
  result : Except String (List Template)
  trace : List Item
  finalCwd : String
deriving Repr

/-- `Genry.searchTemplates` (bin.ts lines 99-121).  With no matched file it
warns, emits `notFound` and returns the empty list without touching the
working directory or importing anything.  Otherwise it emits `found` and
delegates to `loadTemplates`; the import attempts are recorded for every
matched file (the promises are all created), and a rejection of the load step
propagates. -/
def searchTemplates (importEnv : ImportEnv) (packagePath startedCwd : String)
    (files : List String) : SearchResult :=
  if files.isEmpty then
    { result := .ok [], trace := [.notFound], finalCwd := startedCwd }
  else
    let lr := loadTemplates importEnv packagePath startedCwd files
    { result := lr.result
      trace := .found :: files.map .importFile
      finalCwd := lr.finalCwd }

/-- Outcome of a whole `start` run. -/
structure RunResult where
  result : Except String Unit
  trace : List Item
  finalCwd : String
deriving Repr

/-- `Genry.start` (bin.ts lines 168-185).  `choice` models the picker: the
index of the choice the user selects, or `none` on cancel (`prompts` then
resolves with `undefined`).  When the search yields a non-empty list the
picker is shown; if a template was selected its `generate` is awaited with a
rejection propagating (skipping the `end` emit), otherwise — and after a
successful generation — `end` is emitted. -/
def start (importEnv : ImportEnv) (packagePath startedCwd : String)
    (files : List String) (choice : Option Nat) : RunResult :=
  let sr := searchTemplates importEnv packagePath startedCwd files
  match sr.result with
  | .error e => { result := .error e, trace := sr.trace, finalCwd := sr.finalCwd }
  | .ok templates =>
    if templates.isEmpty then
      { result := .ok (), trace := sr.trace, finalCwd := sr.finalCwd }
    else
      match choice.bind (fun i => templates[i]?) with
      | none =>
        { result := .ok ()
          trace := sr.trace ++ [.prompt, .endEv]
          finalCwd := sr.finalCwd }
      | some t =>
        match t.generateResult with
        | .error e =>
          { result := .error e
            trace := sr.trace ++ [.prompt, .generateCall t.name]
            finalCwd := sr.finalCwd }
        | .ok () =>
          { result := .ok ()
            trace := sr.trace ++ [.prompt, .generateCall t.name, .endEv]
            finalCwd := sr.finalCwd }

/-- The process boundary (the async IIFE at bin.ts lines 188-200 has no catch
handler): a resolved `start` ends the process with exit code 0, a rejection is
an unhandled rejection and node terminates the process with a non-zero code. -/
def exitCode (r : RunResult) : Nat :=
  match r.result with
  | .ok _ => 0
  | .error _ => 1

/-- Number of generation-routine invocations recorded in a trace. -/
def generateCalls (tr : List Item) : Nat :=
  (tr.filter fun i => match i with | .generateCall _ => true | _ => false).length

end Genry

namespace Genry

/-- Fixture: the scenario of a good and a bad template file — `a.genry.ts`
exports one template named `A`, any other file rejects on import. -/
def templateA : Template := { name := "A", generateResult := .ok () }

/-- Import environment for the good/bad pair. -/
def mixedImports : ImportEnv := fun f =>
  if f = "a.genry.ts" then .ok (.single templateA) else .error "SyntaxError"

end Genry

namespace Genry

/-- Per-file contribution of a default export to the loaded template list:
an array contributes its elements, a single object contributes itself, a
nullish export contributes nothing. -/
def exportContribution : DefaultExport → List Template
  | .single t => [t]
  | .arr ts => ts
  | .nullish => []

theorem truthyExports_foldl (exps : List DefaultExport) :
    ∀ acc : List Template,
      (truthyExports exps).foldl concatStep acc
        = acc ++ (exps.map exportContribution).flatten := by
  induction exps with
  | nil => intro acc; simp [truthyExports]
  | cons e es ih =>
    intro acc
    cases e <;>
      simp [truthyExports, exportContribution, concatStep, ih, List.foldl_cons]

/-- Characterization of a fully successful load step: when every import
resolves, `loadTemplates` resolves with the per-file contributions
concatenated in file order and restores the working directory. -/
theorem loadTemplates_ok (importEnv : ImportEnv) (packagePath startedCwd : String)
    (files : List String) (exps : List DefaultExport)
    (h : promiseAllImports importEnv files = .ok exps) :
    loadTemplates importEnv packagePath startedCwd files
      = { result := .ok ((exps.map exportContribution).flatten)
          finalCwd := startedCwd } := by
  simp [loadTemplates, h, truthyExports_foldl]

end Genry

namespace Genry

/-- Trace of the search step: the `notFound` event alone when nothing
matched, otherwise the `found` event followed by one import attempt per
matched file. -/
theorem searchTemplates_trace (importEnv : ImportEnv) (packagePath startedCwd : String)
    (files : List String) :
    (searchTemplates importEnv packagePath startedCwd files).trace
      = if files.isEmpty then [.notFound]
        else .found :: files.map .importFile := by
  unfold searchTemplates
  by_cases h : files.isEmpty <;> simp [h]

/-- The search step never performs a generation call. -/
theorem generateCalls_search (importEnv : ImportEnv) (packagePath startedCwd : String)
    (files : List String) :
    generateCalls (searchTemplates importEnv packagePath startedCwd files).trace = 0 := by
  rw [searchTemplates_trace]
  by_cases h : files.isEmpty <;>
    simp [h, generateCalls, List.filter_map, Function.comp_def]

/-- C1 (evaluating the code at the failing pair of files): with `a.genry.ts`
exporting template `A` and `b.genry.js` rejecting on import, the load step
rejects — yielding no template at all and aborting the surrounding run —
instead of returning the `[A]` mandated by partial-failure semantics.  The
`try`/`catch` in `loadTemplates` guards only the synchronous creation of
the promise, so the rejection reaches `Promise.all` uncaught. -/
theorem c1_failed_import_aborts_load :
    (loadTemplates mixedImports "/proj" "/caller" ["a.genry.ts", "b.genry.js"]).result
        = .error "SyntaxError"
      ∧ (start mixedImports "/proj" "/caller" ["a.genry.ts", "b.genry.js"] none).result
        = .error "SyntaxError" := by
  exact ⟨rfl, rfl⟩

/-- C2 (evaluating the code at the failing pair of files): when an import
rejects, `loadTemplates` rejects before reaching the `process.chdir(startedCwd)`
line, so the working directory after the call is the package root, not the
directory the process started in. -/
theorem c2_failed_import_leaves_cwd_changed :
    (loadTemplates mixedImports "/proj" "/caller" ["a.genry.ts", "b.genry.js"]).finalCwd
        = "/proj"
      ∧ "/proj" ≠ "/caller" := by
  exact ⟨rfl, by decide⟩

/-- C4: in a run in which every import resolves, the loader resolves with the
per-file contributions concatenated in file order, where a default export that
is an array of N templates contributes exactly those N entries, a single
object contributes exactly itself, and a nullish export contributes zero
entries. -/
theorem c4_export_contribution_counts (importEnv : ImportEnv)
    (packagePath startedCwd : String) (files : List String)
    (exps : List DefaultExport)
    (h : promiseAllImports importEnv files = .ok exps) :
    (loadTemplates importEnv packagePath startedCwd files).result
        = .ok ((exps.map exportContribution).flatten)
      ∧ (∀ ts : List Template, (exportContribution (.arr ts)).length = ts.length)
      ∧ (∀ t : Template, exportContribution (.single t) = [t])
      ∧ exportContribution .nullish = [] := by
  refine ⟨?_, fun ts => rfl, fun t => rfl, rfl⟩
  rw [loadTemplates_ok importEnv packagePath startedCwd files exps h]

/-- Import environment in which every file resolves: one file exports a
single template, one an array of two, one exports nothing. -/
def okImports : ImportEnv := fun f =>
  if f = "one.genry.ts" then .ok (.single templateA)
  else if f = "many.genry.ts" then .ok (.arr [templateA, templateA])
  else .ok .nullish

/-- Witness for the successful-load characterization: three files
contributing 1, 2 and 0 templates yield exactly three templates. -/
theorem c4_export_contribution_counts_witness :
    (loadTemplates okImports "/proj" "/caller"
        ["one.genry.ts", "many.genry.ts", "none.genry.ts"]).result
      = .ok [templateA, templateA, templateA] := by
  have h := c4_export_contribution_counts okImports "/proj" "/caller"
    ["one.genry.ts", "many.genry.ts", "none.genry.ts"]
    [.single templateA, .arr [templateA, templateA], .nullish] rfl
  exact h.1.trans rfl

end Genry

namespace Genry

theorem generateCalls_append (l₁ l₂ : List Item) :
    generateCalls (l₁ ++ l₂) = generateCalls l₁ + generateCalls l₂ := by
  simp [generateCalls, List.filter_append]

/-- C3: a rejection of the selected generation routine is caught nowhere in
the pipeline — the run result is that very rejection, exactly one generation
call was made (no retry), and the process terminates with a non-zero exit
code. -/
theorem c3_generate_failure_propagates (importEnv : ImportEnv)
    (packagePath startedCwd : String) (files : List String) (choice : Option Nat)
    (templates : List Template) (i : Nat) (t : Template) (msg : String)
    (hok : (searchTemplates importEnv packagePath startedCwd files).result = .ok templates)
    (hc : choice = some i) (ht : templates[i]? = some t)
    (hg : t.generateResult = .error msg) :
    (start importEnv packagePath startedCwd files choice).result = .error msg
      ∧ generateCalls (start importEnv packagePath startedCwd files choice).trace = 1
      ∧ exitCode (start importEnv packagePath startedCwd files choice) ≠ 0 := by
  have hne : templates.isEmpty = false := by
    cases templates with
    | nil => simp at ht
    | cons a l => rfl
  have hstart : start importEnv packagePath startedCwd files choice
      = { result := .error msg
          trace := (searchTemplates importEnv packagePath startedCwd files).trace
            ++ [.prompt, .generateCall t.name]
          finalCwd := (searchTemplates importEnv packagePath startedCwd files).finalCwd } := by
    simp [start, hok, hne, hc, Option.bind, ht, hg]
  rw [hstart]
  refine ⟨rfl, ?_, by simp [exitCode]⟩
  rw [generateCalls_append, generateCalls_search]
  rfl

/-- Fixture: a template whose generation routine rejects. -/
def templateBoom : Template := { name := "B", generateResult := .error "boom" }

/-- Import environment where every file exports the failing template. -/
def boomImports : ImportEnv := fun _ => .ok (.single templateBoom)

/-- Witness: a concrete run in which the selected generation routine rejects;
the rejection is the run result, one generation call happened, exit is
non-zero. -/
theorem c3_generate_failure_propagates_witness :
    (start boomImports "/proj" "/caller" ["t.genry.ts"] (some 0)).result = .error "boom"
      ∧ generateCalls (start boomImports "/proj" "/caller" ["t.genry.ts"] (some 0)).trace = 1
      ∧ exitCode (start boomImports "/proj" "/caller" ["t.genry.ts"] (some 0)) ≠ 0 :=
  c3_generate_failure_propagates boomImports "/proj" "/caller" ["t.genry.ts"] (some 0)
    [templateBoom] 0 templateBoom "boom" rfl rfl rfl rfl

end Genry

namespace Genry

/-- The trace of a run extends the trace of its search step in one of four
ways: nothing (no templates, or a rejected load), the prompt followed by the
`end` event (cancel), the prompt followed by one generation call (the call
rejected), or the prompt, one generation call and the `end` event. -/
theorem start_trace_cases (importEnv : ImportEnv) (packagePath startedCwd : String)
    (files : List String) (choice : Option Nat) :
    (start importEnv packagePath startedCwd files choice).trace
        = (searchTemplates importEnv packagePath startedCwd files).trace
      ∨ (start importEnv packagePath startedCwd files choice).trace
        = (searchTemplates importEnv packagePath startedCwd files).trace ++ [.prompt, .endEv]
      ∨ (∃ n, (start importEnv packagePath startedCwd files choice).trace
        = (searchTemplates importEnv packagePath startedCwd files).trace
            ++ [.prompt, .generateCall n])
      ∨ (∃ n, (start importEnv packagePath startedCwd files choice).trace
        = (searchTemplates importEnv packagePath startedCwd files).trace
            ++ [.prompt, .generateCall n, .endEv]) := by
  simp only [start]
  rcases hres : (searchTemplates importEnv packagePath startedCwd files).result with e | ts
  · exact Or.inl rfl
  · by_cases hts : ts.isEmpty
    · simp [hts]
    · rcases hch : choice.bind (fun i => ts[i]?) with _ | t
      · simp [hts, hch]
      · rcases hgen : t.generateResult with e | u
        · exact Or.inr (Or.inr (Or.inl ⟨t.name, by simp [hts, hch, hgen]⟩))
        · exact Or.inr (Or.inr (Or.inr ⟨t.name, by simp [hts, hch, hgen]⟩))

theorem generateCalls_prompt_end : generateCalls [.prompt, .endEv] = 0 := rfl

theorem generateCalls_prompt_gen (n : String) :
    generateCalls [.prompt, .generateCall n] = 1 := rfl

theorem generateCalls_prompt_gen_end (n : String) :
    generateCalls [.prompt, .generateCall n, .endEv] = 1 := rfl

/-- C5: with an empty glob match the search step emits exactly the `notFound`
notification and returns the empty template list; the run makes no import
attempt, never shows the picker, and ends normally with exit code 0. -/
theorem c5_empty_match_not_found (importEnv : ImportEnv)
    (packagePath startedCwd : String) (choice : Option Nat) :
    (searchTemplates importEnv packagePath startedCwd []).result = .ok []
      ∧ (searchTemplates importEnv packagePath startedCwd []).trace = [.notFound]
      ∧ (∀ f, .importFile f ∉ (start importEnv packagePath startedCwd [] choice).trace)
      ∧ .prompt ∉ (start importEnv packagePath startedCwd [] choice).trace
      ∧ (start importEnv packagePath startedCwd [] choice).result = .ok ()
      ∧ exitCode (start importEnv packagePath startedCwd [] choice) = 0 := by
  refine ⟨rfl, rfl, ?_, ?_, rfl, rfl⟩ <;>
    simp [start, searchTemplates]

/-- A generation call happens exactly when the search succeeded with a
non-empty list and the picker selection resolved to a template; then it
happens once. -/
theorem generateCalls_selected (importEnv : ImportEnv)
    (packagePath startedCwd : String) (files : List String) (choice : Option Nat)
    (templates : List Template) (i : Nat) (t : Template)
    (hok : (searchTemplates importEnv packagePath startedCwd files).result = .ok templates)
    (hc : choice = some i) (ht : templates[i]? = some t) :
    generateCalls (start importEnv packagePath startedCwd files choice).trace = 1 := by
  have hne : templates.isEmpty = false := by
    cases templates with
    | nil => simp at ht
    | cons a l => rfl
  rcases hgen : t.generateResult with e | u
  · have htr : (start importEnv packagePath startedCwd files choice).trace
        = (searchTemplates importEnv packagePath startedCwd files).trace
          ++ [.prompt, .generateCall t.name] := by
      simp [start, hok, hne, hc, Option.bind, ht, hgen]
    rw [htr, generateCalls_append, generateCalls_search]
    rfl
  · have htr : (start importEnv packagePath startedCwd files choice).trace
        = (searchTemplates importEnv packagePath startedCwd files).trace
          ++ [.prompt, .generateCall t.name, .endEv] := by
      simp [start, hok, hne, hc, Option.bind, ht, hgen]
    rw [htr, generateCalls_append, generateCalls_search]
    rfl

/-- C6: every run performs at most one generation call; it performs exactly
one when the search succeeded with templates and the user selection resolved
to one of them, and exactly zero when no file matched or the user cancelled
the picker. -/
theorem c6_at_most_one_generate (importEnv : ImportEnv)
    (packagePath startedCwd : String) (files : List String) (choice : Option Nat) :
    generateCalls (start importEnv packagePath startedCwd files choice).trace ≤ 1
      ∧ (∀ templates i t,
          (searchTemplates importEnv packagePath startedCwd files).result = .ok templates →
          choice = some i → templates[i]? = some t →
          generateCalls (start importEnv packagePath startedCwd files choice).trace = 1)
      ∧ (files = [] ∨ choice = none →
          generateCalls (start importEnv packagePath startedCwd files choice).trace = 0) := by
  refine ⟨?_, ?_, ?_⟩
  · rcases start_trace_cases importEnv packagePath startedCwd files choice with
      h | h | ⟨n, h⟩ | ⟨n, h⟩
    · rw [h, generateCalls_search]
      exact Nat.zero_le 1
    · rw [h, generateCalls_append, generateCalls_search, generateCalls_prompt_end]
      decide
    · rw [h, generateCalls_append, generateCalls_search, generateCalls_prompt_gen]
    · rw [h, generateCalls_append, generateCalls_search, generateCalls_prompt_gen_end]
  · intro templates i t hok hc ht
    exact generateCalls_selected importEnv packagePath startedCwd files choice
      templates i t hok hc ht
  · rintro (rfl | rfl)
    · exact generateCalls_search importEnv packagePath startedCwd []
    · simp only [start]
      rcases hres : (searchTemplates importEnv packagePath startedCwd files).result with e | ts
      · exact generateCalls_search importEnv packagePath startedCwd files
      · rcases ts with _ | ⟨t0, ts0⟩
        · exact generateCalls_search importEnv packagePath startedCwd files
        · show generateCalls
              ((searchTemplates importEnv packagePath startedCwd files).trace
                ++ [.prompt, .endEv]) = 0
          rw [generateCalls_append, generateCalls_search, generateCalls_prompt_end]

/-- Witness for the at-most-one-generation theorem at a concrete run: a
selected template is generated exactly once. -/
theorem c6_at_most_one_generate_witness :
    generateCalls (start okImports "/proj" "/caller" ["one.genry.ts"] (some 0)).trace = 1 :=
  (c6_at_most_one_generate okImports "/proj" "/caller" ["one.genry.ts"] (some 0)).2.1
    [templateA] 0 templateA rfl rfl rfl

/-- C7: when templates were loaded but the picker is cancelled, no generation
call is made, the `end` notification is still emitted, and the run ends
normally with exit code 0. -/
theorem c7_cancel_skips_generate (importEnv : ImportEnv)
    (packagePath startedCwd : String) (files : List String) (choice : Option Nat)
    (templates : List Template)
    (hok : (searchTemplates importEnv packagePath startedCwd files).result = .ok templates)
    (hne : templates ≠ []) (hc : choice = none) :
    generateCalls (start importEnv packagePath startedCwd files choice).trace = 0
      ∧ .endEv ∈ (start importEnv packagePath startedCwd files choice).trace
      ∧ (start importEnv packagePath startedCwd files choice).result = .ok ()
      ∧ exitCode (start importEnv packagePath startedCwd files choice) = 0 := by
  have hne' : templates.isEmpty = false := by simpa [List.isEmpty_iff] using hne
  have hstart : start importEnv packagePath startedCwd files choice
      = { result := .ok ()
          trace := (searchTemplates importEnv packagePath startedCwd files).trace
            ++ [.prompt, .endEv]
          finalCwd := (searchTemplates importEnv packagePath startedCwd files).finalCwd } := by
    simp [start, hok, hne', hc, Option.bind]
  rw [hstart]
  exact ⟨by rw [generateCalls_append, generateCalls_search]; rfl, by simp, rfl, rfl⟩

/-- Witness for the cancellation theorem at a concrete run. -/
theorem c7_cancel_skips_generate_witness :
    generateCalls (start okImports "/proj" "/caller" ["one.genry.ts"] none).trace = 0
      ∧ .endEv ∈ (start okImports "/proj" "/caller" ["one.genry.ts"] none).trace
      ∧ (start okImports "/proj" "/caller" ["one.genry.ts"] none).result = .ok ()
      ∧ exitCode (start okImports "/proj" "/caller" ["one.genry.ts"] none) = 0 :=
  c7_cancel_skips_generate okImports "/proj" "/caller" ["one.genry.ts"] none
    [templateA] rfl (by simp) rfl

end Genry

namespace Genry

/-- Number of editor-bridge search notifications (`found` or `notFound`) in a
trace. -/
def notifCount (tr : List Item) : Nat :=
  tr.count .found + tr.count .notFound

theorem notifCount_append (l₁ l₂ : List Item) :
    notifCount (l₁ ++ l₂) = notifCount l₁ + notifCount l₂ := by
  simp [notifCount, List.count_append]
  omega

theorem notifCount_prompt_end : notifCount [.prompt, .endEv] = 0 := rfl

theorem notifCount_prompt_gen (n : String) :
    notifCount [.prompt, .generateCall n] = 0 := rfl

theorem notifCount_prompt_gen_end (n : String) :
    notifCount [.prompt, .generateCall n, .endEv] = 0 := rfl

theorem notifCount_search (importEnv : ImportEnv) (packagePath startedCwd : String)
    (files : List String) :
    notifCount (searchTemplates importEnv packagePath startedCwd files).trace = 1 := by
  rw [searchTemplates_trace]
  by_cases hf : files.isEmpty
  · simp [hf]
    decide
  · have h1 : (files.map Item.importFile).count .found = 0 :=
      List.count_eq_zero.mpr (by simp)
    have h2 : (files.map Item.importFile).count .notFound = 0 :=
      List.count_eq_zero.mpr (by simp)
    simp [hf, notifCount, List.count_cons, h1, h2]

theorem notifCount_start (importEnv : ImportEnv) (packagePath startedCwd : String)
    (files : List String) (choice : Option Nat) :
    notifCount (start importEnv packagePath startedCwd files choice).trace = 1 := by
  rcases start_trace_cases importEnv packagePath startedCwd files choice with
    h | h | ⟨n, h⟩ | ⟨n, h⟩
  · rw [h, notifCount_search]
  · rw [h, notifCount_append, notifCount_search, notifCount_prompt_end]
  · rw [h, notifCount_append, notifCount_search, notifCount_prompt_gen]
  · rw [h, notifCount_append, notifCount_search, notifCount_prompt_gen_end]

/-- C8: every run that reaches the search step emits exactly one of the
`found` / `notFound` notifications — `notFound` exactly on an empty glob
match, `found` otherwise, at the head of the trace, before any import
attempt — and the rest of the run adds no further such notification. -/
theorem c8_exactly_one_notification (importEnv : ImportEnv)
    (packagePath startedCwd : String) (files : List String) (choice : Option Nat) :
    notifCount (searchTemplates importEnv packagePath startedCwd files).trace = 1
      ∧ notifCount (start importEnv packagePath startedCwd files choice).trace = 1
      ∧ (files = [] →
          (searchTemplates importEnv packagePath startedCwd files).trace = [.notFound])
      ∧ (files ≠ [] →
          (searchTemplates importEnv packagePath startedCwd files).trace
            = .found :: files.map .importFile) := by
  refine ⟨notifCount_search importEnv packagePath startedCwd files,
    notifCount_start importEnv packagePath startedCwd files choice, ?_, ?_⟩
  · rintro rfl
    rfl
  · intro hne
    rw [searchTemplates_trace, if_neg (by simpa [List.isEmpty_iff] using hne)]

/-- Witness: a run over one matched file emits `found` first and then
the import attempt, even though the notification count stays one. -/
theorem c8_exactly_one_notification_witness :
    (searchTemplates okImports "/proj" "/caller" ["one.genry.ts"]).trace
      = .found :: (["one.genry.ts"].map .importFile) :=
  (c8_exactly_one_notification okImports "/proj" "/caller" ["one.genry.ts"] none).2.2.2
    (by simp)

theorem endEv_not_mem_search (importEnv : ImportEnv) (packagePath startedCwd : String)
    (files : List String) :
    Item.endEv ∉ (searchTemplates importEnv packagePath startedCwd files).trace := by
  rw [searchTemplates_trace]
  by_cases hf : files.isEmpty <;> simp [hf]

theorem prompt_not_mem_search (importEnv : ImportEnv) (packagePath startedCwd : String)
    (files : List String) :
    Item.prompt ∉ (searchTemplates importEnv packagePath startedCwd files).trace := by
  rw [searchTemplates_trace]
  by_cases hf : files.isEmpty <;> simp [hf]

end Genry

namespace Genry

/-- C9 as stated fails: a concrete run in which the loader returned a
non-empty template list, the user selected the template, and its generation
routine rejected — the `end` notification is never emitted because the
rejection skips the emit line. -/
theorem c9_counterexample :
    (searchTemplates boomImports "/proj" "/caller" ["t.genry.ts"]).result
        = .ok [templateBoom]
      ∧ [templateBoom] ≠ ([] : List Template)
      ∧ Item.endEv ∉ (start boomImports "/proj" "/caller" ["t.genry.ts"] (some 0)).trace := by
  refine ⟨rfl, by simp, ?_⟩
  have htr : (start boomImports "/proj" "/caller" ["t.genry.ts"] (some 0)).trace
      = [.found, .importFile "t.genry.ts", .prompt, .generateCall "B"] := rfl
  rw [htr]
  decide

/-- C9 amended: the `end` notification is emitted exactly when the loader
returned a non-empty template list AND the run settled successfully (that is,
the generation call — when one was made — did not reject); in particular,
when files matched but every import contributed zero templates, `found` was
emitted yet the picker is skipped and no `end` notification is ever emitted. -/
theorem c9_end_iff_loaded_and_ok (importEnv : ImportEnv)
    (packagePath startedCwd : String) (files : List String) (choice : Option Nat) :
    (Item.endEv ∈ (start importEnv packagePath startedCwd files choice).trace
      ↔ ((∃ ts, (searchTemplates importEnv packagePath startedCwd files).result = .ok ts
            ∧ ts ≠ [])
          ∧ (start importEnv packagePath startedCwd files choice).result = .ok ()))
      ∧ (files ≠ [] →
          (searchTemplates importEnv packagePath startedCwd files).result = .ok [] →
          Item.found ∈ (start importEnv packagePath startedCwd files choice).trace
            ∧ Item.prompt ∉ (start importEnv packagePath startedCwd files choice).trace
            ∧ Item.endEv ∉ (start importEnv packagePath startedCwd files choice).trace) := by
  constructor
  · simp only [start]
    rcases hres : (searchTemplates importEnv packagePath startedCwd files).result with e | ts
    · simp [endEv_not_mem_search]
    · rcases ts with _ | ⟨t0, ts0⟩
      · simp [endEv_not_mem_search]
      · rcases hch : (choice.bind fun i => (t0 :: ts0)[i]?) with _ | t
        · simp [hch, endEv_not_mem_search]
        · rcases hgen : t.generateResult with e | u
          · simp [hch, hgen, endEv_not_mem_search]
          · simp [hch, hgen, endEv_not_mem_search]
  · intro hne hok
    simp only [start, hok]
    simp only [List.isEmpty_nil, if_true]
    refine ⟨?_, prompt_not_mem_search importEnv packagePath startedCwd files,
      endEv_not_mem_search importEnv packagePath startedCwd files⟩
    rw [searchTemplates_trace, if_neg (by simpa [List.isEmpty_iff] using hne)]
    exact List.mem_cons_self _ _

/-- Witness for the amended claim: in a concrete cancelled run over one
loaded template the `end` notification is emitted. -/
theorem c9_end_iff_loaded_and_ok_witness :
    Item.endEv ∈ (start okImports "/proj" "/caller" ["one.genry.ts"] none).trace :=
  (c9_end_iff_loaded_and_ok okImports "/proj" "/caller" ["one.genry.ts"] none).1.mpr
    ⟨⟨[templateA], rfl, by simp⟩, rfl⟩

end Genry

namespace Genry

/-- The fixed template-marker extension (bin.ts line 18). -/
def TEMPLATE_TYPE : String := "genry"

/-- The final, slash-free segment of the glob pattern built at bin.ts line
102: every candidate basename must match it. -/
def templateGlobSeg : String := "*." ++ TEMPLATE_TYPE ++ ".?(ts|js)"

/-- The glob pattern of bin.ts line 102 split on `/` the way minimatch splits
it: the configured include pattern — `**` when unset or empty, mirroring
`this.config.include || "**"` — contributes its own segments, followed by the
fixed basename segment (which contains no slash). -/
def templatePatternSegs (includeSegs : List String) : List String :=
  (if includeSegs = [] then ["**"] else includeSegs) ++ [templateGlobSeg]

/-- Minimatch matching of a segment pattern list against a path segment list,
parameterized by the single-segment matcher `m`; a `**` pattern segment
(globstar) matches any number of whole path segments, every other pattern
segment must match exactly one path segment via `m`. -/
def matchSegs (m : String → String → Bool) : List String → List String → Bool
  | [], [] => true
  | [], _ :: _ => false
  | p :: ps, [] => if p = "**" then matchSegs m ps [] else false
  | p :: ps, s :: ss =>
    if p = "**" then matchSegs m ps (s :: ss) || matchSegs m (p :: ps) ss
    else m p s && matchSegs m ps ss
termination_by pp ss => (pp.length, ss.length)

/-- Minimatch semantics of the concrete segment pattern `*.genry.?(ts|js)`
with `dot: true`: a leading star matching any (possibly empty) character run,
the literal `.genry.`, then an optional `ts` or `js` — equivalently, the
segment ends in `.genry.ts`, `.genry.js`, or the bare `.genry.`. -/
def templateSegMatch (s : String) : Bool :=
  ("." ++ TEMPLATE_TYPE ++ ".ts").data.isSuffixOf s.data
    || ("." ++ TEMPLATE_TYPE ++ ".js").data.isSuffixOf s.data
    || ("." ++ TEMPLATE_TYPE ++ ".").data.isSuffixOf s.data

/-- The glob call of `searchTemplates`: keep the paths matching the built
pattern and not matching the configured exclude pattern (the `ignore`
option only ever removes candidates). -/
def globSearch (m : String → String → Bool) (includeSegs : List String)
    (ignore : List String → Bool) (paths : List (List String)) : List (List String) :=
  paths.filter fun p =>
    matchSegs m (templatePatternSegs includeSegs) p && !(ignore p)

theorem matchSegs_nil_empty (m : String → String → Bool) :
    ∀ ss : List String, matchSegs m [] ss = true → ss = [] := by
  intro ss h
  cases ss with
  | nil => rfl
  | cons s ss0 => simp [matchSegs] at h

theorem matchSegs_nil_of_getLast (m : String → String → Bool) (q : String)
    (hq : q ≠ "**") :
    ∀ pp : List String, pp.getLast? = some q → matchSegs m pp [] = false := by
  intro pp
  induction pp with
  | nil => intro h; simp at h
  | cons p ps ih =>
    intro h
    cases ps with
    | nil =>
      simp at h
      subst h
      simp [matchSegs, hq]
    | cons p1 ps1 =>
      rw [List.getLast?_cons_cons] at h
      by_cases hp : p = "**"
      · simp [matchSegs, hp, ih h]
      · simp [matchSegs, hp]

theorem matchSegs_getLast (m : String → String → Bool) (q : String) (hq : q ≠ "**") :
    ∀ (n : Nat) (pp ss : List String), pp.length + ss.length ≤ n →
      pp.getLast? = some q → matchSegs m pp ss = true →
      ∃ s, ss.getLast? = some s ∧ m q s = true := by
  intro n
  induction n with
  | zero =>
    intro pp ss hlen hlast _
    cases pp with
    | nil => simp at hlast
    | cons p ps => simp at hlen
  | succ n ih =>
    intro pp ss hlen hlast hmatch
    cases pp with
    | nil => simp at hlast
    | cons p ps =>
      cases ss with
      | nil =>
        rw [matchSegs_nil_of_getLast m q hq (p :: ps) hlast] at hmatch
        exact absurd hmatch (by simp)
      | cons s ss0 =>
        by_cases hp : p = "**"
        · subst hp
          have hps : ps ≠ [] := by
            intro h
            subst h
            simp at hlast
            exact hq hlast.symm
          have hlast' : ps.getLast? = some q := by
            cases ps with
            | nil => exact absurd rfl hps
            | cons p1 ps1 => rw [List.getLast?_cons_cons] at hlast; exact hlast
          rw [matchSegs] at hmatch
          simp only [if_pos rfl, if_true, Bool.or_eq_true] at hmatch
          rcases hmatch with h | h
          · exact ih ps (s :: ss0) (by simp at hlen ⊢; omega) hlast' h
          · obtain ⟨s1, hs1, hm1⟩ :=
              ih ("**" :: ps) ss0 (by simp at hlen ⊢; omega) hlast h
            refine ⟨s1, ?_, hm1⟩
            cases ss0 with
            | nil => simp at hs1
            | cons a l => rw [List.getLast?_cons_cons]; exact hs1
        · rw [matchSegs] at hmatch
          simp only [if_neg hp, Bool.and_eq_true] at hmatch
          obtain ⟨hms, hrest⟩ := hmatch
          cases ps with
          | nil =>
            simp at hlast
            subst hlast
            have : ss0 = [] := matchSegs_nil_empty m ss0 hrest
            subst this
            exact ⟨s, rfl, hms⟩
          | cons p1 ps1 =>
            rw [List.getLast?_cons_cons] at hlast
            obtain ⟨s1, hs1, hm1⟩ :=
              ih (p1 :: ps1) ss0 (by simp at hlen ⊢; omega) hlast hrest
            refine ⟨s1, ?_, hm1⟩
            cases ss0 with
            | nil => simp at hs1
            | cons a l => rw [List.getLast?_cons_cons]; exact hs1

end Genry

namespace Genry

/-- C10: whatever the include pattern (expanded when unset to `**`) and
whatever the exclude predicate, every path returned by the glob expansion —
hence every file the loader ever imports, since the search step imports only
the files the glob returned — has a basename matching `*.genry.?(ts|js)`:
any stem followed by the `.genry.` marker and an optional `ts` or `js`
extension (the optional group also admitting a bare trailing dot).  The
single-segment matcher `m` is abstract except for its behaviour on the fixed
final pattern segment, which is the modelled minimatch semantics. -/
theorem c10_only_marker_files_loadable (m : String → String → Bool)
    (includeSegs : List String) (ignore : List String → Bool)
    (paths : List (List String)) (p : List String)
    (hm : ∀ s, m templateGlobSeg s = true → templateSegMatch s = true)
    (hp : p ∈ globSearch m includeSegs ignore paths) :
    (∃ b, p.getLast? = some b ∧ templateSegMatch b = true)
      ∧ ∀ (importEnv : ImportEnv) (packagePath startedCwd : String)
          (files : List String) (f : String),
          Item.importFile f ∈ (searchTemplates importEnv packagePath startedCwd files).trace →
          f ∈ files := by
  constructor
  · have hmem := List.mem_filter.mp hp
    have hmatch : matchSegs m (templatePatternSegs includeSegs) p = true := by
      have h2 := hmem.2
      simp only [Bool.and_eq_true] at h2
      exact h2.1
    have hlastpat : (templatePatternSegs includeSegs).getLast? = some templateGlobSeg := by
      unfold templatePatternSegs
      exact List.getLast?_concat _
    have hq : templateGlobSeg ≠ "**" := by decide
    obtain ⟨s, hs, hm1⟩ := matchSegs_getLast m templateGlobSeg hq
      ((templatePatternSegs includeSegs).length + p.length)
      (templatePatternSegs includeSegs) p le_rfl hlastpat hmatch
    exact ⟨s, hs, hm s hm1⟩
  · intro importEnv packagePath startedCwd files f hf
    rw [searchTemplates_trace] at hf
    by_cases hfe : files.isEmpty
    · simp [hfe] at hf
    · simp [hfe] at hf
      exact hf

/-- A concrete single-segment matcher: the fixed template segment pattern is
matched by its modelled semantics, every other segment pattern matches
literally. -/
def basicSegMatch (pat s : String) : Bool :=
  if pat = templateGlobSeg then templateSegMatch s else pat == s

/-- Witness: under the default include pattern the glob result
`src/a.genry.ts` has a basename carrying the `.genry.` marker. -/
theorem c10_only_marker_files_loadable_witness :
    templateSegMatch "a.genry.ts" = true := by
  obtain ⟨⟨b, hb1, hb2⟩, _⟩ := c10_only_marker_files_loadable basicSegMatch []
    (fun _ => false) [["src", "a.genry.ts"]] ["src", "a.genry.ts"]
    (fun s h => by simpa [basicSegMatch] using h)
    (by
      refine List.mem_filter.mpr ⟨List.mem_singleton.mpr rfl, ?_⟩
      simp only [Bool.and_eq_true]
      refine ⟨?_, rfl⟩
      rw [show templatePatternSegs [] = ["**", templateGlobSeg] from rfl]
      simp [matchSegs, basicSegMatch]
      decide)
  have hval : (["src", "a.genry.ts"] : List String).getLast? = some "a.genry.ts" := by rfl
  rw [hval] at hb1
  exact (Option.some.inj hb1).symm ▸ hb2

end Genry
